import Mathlib

/-!
Shallow embedding of the Orchestrate instance-creation pipeline
(`orchestrateapi/commands/instances/create.py`).

Python dicts whose keys are fixed by the code become structures with
`Option` fields (a `none` field models an absent key, and reading it
raises `KeyError`); Python lists become `List`; Python exceptions become
an explicit `PyError` sum threaded through `Except`.  Remote Compute
Engine calls (`instanceTemplates.get`, `images.get`,
`images.getFromFamily`, `instances.insert`) and the two nondeterministic
inputs (`uuid4` values, the bucket name) are supplied by an `Env`
record, so every function is a pure, executable Lean definition.
-/

deriving instance DecidableEq for Except

namespace Orchestrate

/-- Python exception outcomes visible in `create.py`:
`KeyError` from dict indexing (including `str.format` on an unknown
placeholder), `ValueError` from a malformed format string,
`AttributeError` from calling `.group` on a failed `re.match` (`None`),
the domain error class `OrchestrateInstanceCreationError`, and
`googleapiclient.errors.HttpError` from remote calls. -/
inductive PyError where
  | keyError (key : String)
  | valueError (msg : String)
  | attributeError (msg : String)
  | orchestrateError (msg : String)
  | http (status : Nat) (body : String)
deriving DecidableEq, Repr

/-- Holds exactly for `OrchestrateInstanceCreationError`, the only
domain error class defined by the module. -/
def PyError.isDomainError : PyError → Bool
  | .orchestrateError _ => true
  | _ => false

/-- One entry of a `metadata.items` list: `dict(key=..., value=...)`. -/
structure MetadataItem where
  key : String
  value : String
deriving DecidableEq, Repr

/-- A Python dict built by repeated `d[k] = v` insertions, kept as the
insertion sequence; a later insertion of the same key overwrites the
earlier one, so lookup reads the last binding. -/
abbrev Dict := List (String × String)

/-- Python `d.get(k)`: value of the last binding of `k`, or `None`. -/
def dget (d : Dict) (k : String) : Option String :=
  (d.reverse.find? (fun p => p.1 = k)).map (fun p => p.2)

/-- Python `d.get(k, default)`. -/
def dgetD (d : Dict) (k : String) (default : String) : String :=
  (dget d k).getD default

/-- The `properties.disks[].initializeParams` fields read by the code. -/
structure InitializeParams where
  sourceImage : String
  diskType : String
deriving DecidableEq, Repr

/-- One `properties.disks[]` entry. -/
structure Disk where
  boot : Bool
  initializeParams : InitializeParams
deriving DecidableEq, Repr

/-- One `properties.networkInterfaces[]` entry; the code only ever
assigns its `network` and `subnetwork` keys. -/
structure NetworkInterface where
  network : String
  subnetwork : String
deriving DecidableEq, Repr

/-- One `properties.guestAccelerators[]` entry. -/
structure Accelerator where
  acceleratorType : String
deriving DecidableEq, Repr

/-- The `properties.metadata` dict; its `items` key may be absent. -/
structure MetadataBlock where
  items : Option (List MetadataItem)
deriving DecidableEq, Repr

/-- Template `properties`: each key the code may transfer is `Option`al,
mirroring `if key in properties`.  Fields the code copies verbatim but
never inspects (tags, labels, scheduling, serviceAccounts) are kept as
opaque strings. -/
structure TemplateProperties where
  machineType : Option String := none
  tags : Option String := none
  canIpForward : Option Bool := none
  networkInterfaces : Option (List NetworkInterface) := none
  labels : Option String := none
  scheduling : Option String := none
  deletionProtection : Option Bool := none
  serviceAccounts : Option String := none
  guestAccelerators : Option (List Accelerator) := none
  disks : Option (List Disk) := none
  metadata : Option MetadataBlock := none
deriving DecidableEq, Repr

/-- An `instanceTemplate` object as returned by the API. -/
structure Template where
  name : String
  properties : TemplateProperties
deriving DecidableEq, Repr

/-- An image object: the fields read by `get_images`/`get_os_type`. -/
structure Image where
  selfLink : String
  family : String
  labels : Dict := []
deriving DecidableEq, Repr

/-- The `request.instance` message (`orchestrate_pb2`): proto3 strings
default to `""`, which Python truthiness treats as absent. -/
structure Inst where
  project : String
  zone : String
  template : String
  size : String
  name : String
  metadata : List MetadataItem
  use_latest_image : Bool
deriving DecidableEq, Repr

/-- The instance-creation payload dict.  Keys copied from template
properties stay `Option`al (absent key = `none`); `name`, `description`,
`metadata` and the always-assigned `machineType` are plain. -/
structure Payload where
  name : String
  description : String
  machineType : Option String := none
  tags : Option String := none
  canIpForward : Option Bool := none
  networkInterfaces : Option (List NetworkInterface) := none
  labels : Option String := none
  scheduling : Option String := none
  deletionProtection : Option Bool := none
  serviceAccounts : Option String := none
  guestAccelerators : Option (List Accelerator) := none
  disks : Option (List Disk) := none
  metadata : List MetadataItem := []
deriving DecidableEq, Repr

/-- The collaborators of the module: the Compute Engine client
(`compute.*`), `environ.ORCHESTRATE_BUCKET`, and the values produced by
the two `uuid.uuid4()` calls. -/
structure Env where
  getTemplate : Inst → Template
  getImage : String → String → Image
  getImageFromFamily : String → String → Image
  insertInstance : Inst → Payload → Except (Nat × String) String
  uuid5 : String
  requestId : String
  bucket : String

/-! ### Python string primitives, code-point faithful -/

/-- Python `s.split(sep)` for a one-character separator. -/
def pySplitCharAux (sep : Char) : List Char → List Char → List String
  | [], acc => [String.mk acc.reverse]
  | c :: rest, acc =>
      if c = sep then String.mk acc.reverse :: pySplitCharAux sep rest []
      else pySplitCharAux sep rest (c :: acc)

/-- Python `s.split(sep)` (single-char `sep`); `"".split(sep) = [""]`. -/
def pySplitChar (sep : Char) (s : String) : List String :=
  pySplitCharAux sep s.data []

/-- Python `sep.join(parts)` for a one-character separator. -/
def pyJoinChar (sep : Char) : List String → String
  | [] => ""
  | [x] => x
  | x :: xs => x ++ String.mk [sep] ++ pyJoinChar sep xs

/-- Python `s.startswith(pre)`. -/
def pyStartsWith (s pre : String) : Bool :=
  pre.data.isPrefixOf s.data

/-- Python `s.endswith(suf)`. -/
def pyEndsWith (s suf : String) : Bool :=
  suf.data.isSuffixOf s.data

/-- Python `s[n:]` (code-point slicing). -/
def pyDrop (s : String) (n : Nat) : String :=
  String.mk (s.data.drop n)

/-- Python `s[:-n]` for `n > 0` (empty when `len(s) <= n`). -/
def pyDropLast (s : String) (n : Nat) : String :=
  String.mk (s.data.take (s.data.length - n))

/-- Python `s.lower()` (ASCII range, which covers every use here). -/
def pyToLower (s : String) : String :=
  String.mk (s.data.map Char.toLower)

/-- Python `'-'.join(zone.split('-')[:2])`: the region of a zone. -/
def regionOf (zone : String) : String :=
  pyJoinChar '-' ((pySplitChar '-' zone).take 2)

/-! ### `str.format`

`build_name` runs the chosen pattern through `str.format` with fixed
keyword arguments.  The scanner below models format strings whose
replacement fields are plain keyword names (no conversions, format
specs, indexing or attribute access — the only shapes the module uses):
`{{`/`}}` become literal braces, `{name}` is substituted (a missing
keyword raises `KeyError`), a stray brace raises `ValueError`. -/

def lbrace : Char := Char.ofNat 123

def rbrace : Char := Char.ofNat 125

/-- Format-string scanner.  `field = none` while scanning literal text;
`field = some acc` while inside a replacement field, with the field
name accumulated in reverse in `acc`. -/
def scanFormat (lookup : String → Option String) :
    List Char → Option (List Char) → Except PyError (List Char)
  | [], none => .ok []
  | [], some _ => .error (.valueError "Single lbrace encountered in format string")
  | c :: rest, none =>
      if c = lbrace then
        match rest with
        | [] => .error (.valueError "Single lbrace encountered in format string")
        | c2 :: rest2 =>
            if c2 = lbrace then
              match scanFormat lookup rest2 none with
              | .error e => .error e
              | .ok t => .ok (lbrace :: t)
            else scanFormat lookup (c2 :: rest2) (some [])
      else if c = rbrace then
        match rest with
        | [] => .error (.valueError "Single rbrace encountered in format string")
        | c2 :: rest2 =>
            if c2 = rbrace then
              match scanFormat lookup rest2 none with
              | .error e => .error e
              | .ok t => .ok (rbrace :: t)
            else .error (.valueError "Single rbrace encountered in format string")
      else
        match scanFormat lookup rest none with
        | .error e => .error e
        | .ok t => .ok (c :: t)
  | c :: rest, some acc =>
      if c = rbrace then
        match lookup (String.mk acc.reverse) with
        | none => .error (.keyError (String.mk acc.reverse))
        | some v =>
            match scanFormat lookup rest none with
            | .error e => .error e
            | .ok t => .ok (v.data ++ t)
      else if c = lbrace then
        .error (.valueError "unexpected lbrace in field name")
      else scanFormat lookup rest (some (c :: acc))

/-- Python `pattern.format(**kwargs)` with `kwargs` given as `lookup`. -/
def pyFormat (lookup : String → Option String) (s : String) : Except PyError String :=
  match scanFormat lookup s.data none with
  | .error e => .error e
  | .ok t => .ok (String.mk t)

/-! ### `get_metadata` -/

/-- The loop body of `get_metadata`: items whose key starts with
`"orchestrate_"` go to the orchestrate dict under `item['key'][8:]`
(note: the code slices off 8 characters, not the 12-character prefix);
all other items are appended to the instance metadata list. -/
def splitMetadataItems (items : List MetadataItem) :
    List MetadataItem × Dict :=
  items.foldl
    (fun acc item =>
      if pyStartsWith item.key "orchestrate_" then
        (acc.1, acc.2 ++ [(pyDrop item.key 8, item.value)])
      else
        (acc.1 ++ [item], acc.2))
    ([], [])

/-- Model of `get_metadata(instance, template)`: split
`template['properties']['metadata']['items']` into instance metadata
and the orchestrate dict, then append the request metadata items. -/
def get_metadata (inst : Inst) (template : Template) :
    Except PyError (List MetadataItem × Dict) :=
  match template.properties.metadata with
  | none => .error (.keyError "metadata")
  | some mblock =>
    match mblock.items with
    | none => .error (.keyError "items")
    | some items =>
      let split := splitMetadataItems items
      .ok (split.1 ++ inst.metadata.map (fun item => ⟨item.key, item.value⟩),
           split.2)

/-! ### `get_images` and the source-image regular expression

`get_images` runs
`re.match(r".*" + "/projects/(?P<project>.*)/global/images/(?P<version>.*)", link)`.
All three `.*` are greedy, so the match (when one exists) takes the last
occurrence of `"/projects/"` that is still followed by
`"/global/images/"`, and within the remaining suffix the last
occurrence of `"/global/images/"`; `version` is everything after it. -/

/-- All decompositions `l = a ++ pat ++ b`, ordered by increasing `a`. -/
def occs (pat : List Char) : List Char → List (List Char × List Char)
  | [] => if pat.isEmpty then [([], [])] else []
  | c :: rest =>
      (if pat.isPrefixOf (c :: rest) then [([], (c :: rest).drop pat.length)] else []) ++
      (occs pat rest).map (fun pr => (c :: pr.1, pr.2))

/-- The greedy match of the source-image pattern: `some (project,
version)` on success, `none` when `re.match` returns `None`. -/
def reMatchImages (link : String) : Option (String × String) :=
  let pp := "/projects/".data
  let gg := "/global/images/".data
  let cands := (occs pp link.data).filter (fun pr => !(occs gg pr.2).isEmpty)
  match cands.getLast? with
  | none => none
  | some pr =>
    match (occs gg pr.2).getLast? with
    | none => none
    | some q => some (String.mk q.1, String.mk q.2)

/-- Model of `get_images(parameters)`: parse the source-image link, then fetch
the exact image and the latest image of its family.  A link the pattern
does not match leaves `match = None`, and `match.group(...)` raises
`AttributeError` — there is no domain error on this path. -/
def get_images (env : Env) (parameters : InitializeParams) :
    Except PyError (Image × Image) :=
  match reMatchImages parameters.sourceImage with
  | none => .error (.attributeError "NoneType object has no attribute group")
  | some pv =>
    let image := env.getImage pv.1 pv.2
    let latest := env.getImageFromFamily pv.1 image.family
    .ok (image, latest)

/-- Model of `get_boot_images(disks)`: return `get_images` of the first disk
whose `boot` flag is set; raise the domain error only when no disk is
boot-flagged. -/
def get_boot_images (env : Env) : List Disk → Except PyError (Image × Image)
  | [] => .error (.orchestrateError "Template has no boot disk.")
  | disk :: rest =>
      if disk.boot then get_images env disk.initializeParams
      else get_boot_images env rest

/-! ### `get_os_type` and `set_startup_script` -/

/-- The fixed `linux_families` allow-list. -/
def linux_families : List String :=
  ["centos", "debian", "rhel", "sles", "cos", "coreos", "ubuntu"]

/-- The `UnknownOSTypeError`-style message raised by `get_os_type`. -/
def osTypeErrorMessage (image : Image) : String :=
  "Image " ++ image.selfLink ++ " does not have a orchestrate_os label. And," ++
  " could not guess the OS from the family name based on GCP image family" ++
  " naming conventions, e.g. windows-, centos-, etc. Please add a" ++
  " orchestrate_os label and set it to either \"linux\" or \"windows\" to" ++
  " indicate the base OS for this image. Or, rename the image family to" ++
  " include a prefix with the base OS name."

/-- Model of `get_os_type(image)`: a truthy `orchestrate_os` label wins and is
returned lowercased as-is; otherwise the first dash-delimited token of
the family name decides; otherwise the domain error is raised. -/
def get_os_type (image : Image) : Except PyError String :=
  let osLabel := dget image.labels "orchestrate_os"
  match osLabel with
  | some os =>
      if os = "" then
        familyOsType image
      else
        .ok (pyToLower os)
  | none => familyOsType image
where
  /-- Steps 2 and 3 of `get_os_type`: the family-prefix heuristic and
  the failure message. -/
  familyOsType (image : Image) : Except PyError String :=
    let family := (pySplitChar '-' image.family).headD ""
    if family = "windows" then .ok "windows"
    else if linux_families.contains family then .ok "linux"
    else .error (.orchestrateError (osTypeErrorMessage image))

/-- Model of `set_startup_script(metadata, image)`: append the Linux or Windows
startup-script item chosen by `get_os_type`; any other classification
appends nothing and raises nothing. -/
def set_startup_script (bucket : String) (metadata : List MetadataItem)
    (image : Image) : Except PyError (List MetadataItem) :=
  match get_os_type image with
  | .error e => .error e
  | .ok os_type =>
      if os_type = "linux" then
        .ok (metadata ++
          [⟨"startup-script-url", "gs://" ++ bucket ++ "/remotedesktopconfigure.py"⟩])
      else if os_type = "windows" then
        .ok (metadata ++
          [⟨"windows-startup-script-url", "gs://" ++ bucket ++ "/remotedesktopconfigure.ps1"⟩])
      else .ok metadata

/-! ### `build_name` -/

/-- The keyword arguments of the `name_pattern.format(...)` call in
`build_name`, as a lookup from placeholder name to value.  `user` and
`id` are deliberately bound to the same freshly generated token. -/
def nameLookup (env : Env) (inst : Inst) (orchestrate_metadata : Dict) :
    String → Option String :=
  let unique_id := env.uuid5
  let gpu_count := dgetD orchestrate_metadata "gpu_count" "0"
  let gpu_type := dgetD orchestrate_metadata "gpu_type" ""
  let graphics_type := if pyEndsWith gpu_type "-vws" then "vws" else "gpu"
  let gpu_name := if pyEndsWith gpu_type "-vws" then pyDropLast gpu_type 4 else gpu_type
  fun k =>
    if k = "template" then some inst.template
    else if k = "size" then some inst.size
    else if k = "region" then some (regionOf inst.zone)
    else if k = "zone" then some inst.zone
    else if k = "type" then some graphics_type
    else if k = "gpu_name" then some gpu_name
    else if k = "gpu_count" then some gpu_count
    else if k = "gpu_type" then some gpu_type
    else if k = "user" then some unique_id
    else if k = "id" then some unique_id
    else none

/-- The pattern chosen by
`instance.name or instance_name_pattern or default_pattern`
(Python `or`: an empty string and `None` are both falsy). -/
def chooseNamePattern (inst : Inst) (orchestrate_metadata : Dict) : String :=
  if inst.name ≠ "" then inst.name
  else
    match dget orchestrate_metadata "instance_name_pattern" with
    | some p => if p ≠ "" then p else "{template}-{size}-{id}"
    | none => "{template}-{size}-{id}"

/-- Model of `build_name(instance, orchestrate_metadata)`: pick the pattern by
the three-way precedence, then run it through `str.format` with the
fixed keyword arguments. -/
def build_name (env : Env) (inst : Inst) (orchestrate_metadata : Dict) :
    Except PyError String :=
  pyFormat (nameLookup env inst orchestrate_metadata)
    (chooseNamePattern inst orchestrate_metadata)

/-! ### `build_instance_payload` -/

/-- The per-accelerator rewrite of the `guestAccelerators` loop. -/
def rewriteAccelerator (zone_url : String) (a : Accelerator) : Accelerator :=
  { a with acceleratorType := zone_url ++ "/acceleratorTypes/" ++ a.acceleratorType }

/-- The per-disk rewrite of the `disks` loop: qualify `diskType`, and
for a boot disk with `use_latest_image` set, point `sourceImage` at the
latest image. -/
def rewriteDisk (zone_url : String) (useLatest : Bool) (latest : Image)
    (d : Disk) : Disk :=
  let ps := d.initializeParams
  let ps1 := { ps with diskType := zone_url ++ "/diskTypes/" ++ ps.diskType }
  let ps2 :=
    if d.boot && useLatest then { ps1 with sourceImage := latest.selfLink }
    else ps1
  { d with initializeParams := ps2 }

/-- The per-interface rewrite of the `networkInterfaces` loop: both the
network and the subnetwork use the same name. -/
def rewriteInterface (region_url network : String) (i : NetworkInterface) :
    NetworkInterface :=
  { i with
    network := "global/networks/" ++ network,
    subnetwork := region_url ++ "/subnetworks/" ++ network }

/-- Model of `build_instance_payload(instance)`.  Effect order follows the
source: `get_template`, `get_metadata`, `build_name`,
`properties['disks']` (a `KeyError` when absent), `get_boot_images`,
the pure URL rewrites, `payload['networkInterfaces']` (a `KeyError`
when the template had none to transfer), `set_startup_script`.
`payload['disks']` at the disk loop cannot fail because
`properties['disks']` was already read.  The transferred keys keep
their template values (`if key in properties`), with `machineType`
unconditionally overwritten afterwards. -/
def build_instance_payload (env : Env) (inst : Inst) : Except PyError Payload :=
  let template := env.getTemplate inst
  match get_metadata inst template with
  | .error e => .error e
  | .ok md =>
    let instance_metadata := md.1
    let orchestrate_metadata := md.2
    match build_name env inst orchestrate_metadata with
    | .error e => .error e
    | .ok name =>
      let region := regionOf inst.zone
      let region_url := "projects/" ++ inst.project ++ "/regions/" ++ region
      let zone_url := "projects/" ++ inst.project ++ "/zones/" ++ inst.zone
      let properties := template.properties
      match properties.disks with
      | none => .error (.keyError "disks")
      | some disks0 =>
        match get_boot_images env disks0 with
        | .error e => .error e
        | .ok images =>
          let boot_image := images.1
          let boot_image_latest := images.2
          match properties.networkInterfaces with
          | none => .error (.keyError "networkInterfaces")
          | some interfaces0 =>
            match set_startup_script env.bucket instance_metadata
                (if inst.use_latest_image then boot_image_latest else boot_image) with
            | .error e => .error e
            | .ok metadata_final =>
              let network := dgetD orchestrate_metadata "network" "default"
              .ok
                { name := name
                  description :=
                    "Orchestrate instance created from template " ++ inst.template ++
                    " size " ++ inst.size
                  machineType := some (zone_url ++ "/machineTypes/" ++
                    dgetD orchestrate_metadata "machine_type" "n1-standard-8")
                  tags := properties.tags
                  canIpForward := properties.canIpForward
                  networkInterfaces :=
                    some (interfaces0.map (rewriteInterface region_url network))
                  labels := properties.labels
                  scheduling := properties.scheduling
                  deletionProtection := properties.deletionProtection
                  serviceAccounts := properties.serviceAccounts
                  guestAccelerators :=
                    properties.guestAccelerators.map
                      (fun l => l.map (rewriteAccelerator zone_url))
                  disks :=
                    some (disks0.map
                      (rewriteDisk zone_url inst.use_latest_image boot_image_latest))
                  metadata := metadata_final }

/-! ### `run` -/

/-- The `CreateInstanceResponse` fields set by `run`. -/
structure Response where
  status : String
  request_id : String
  name : String
deriving DecidableEq, Repr

/-- Model of `run(request, context)`: build the payload and submit it.  The
`except errors.HttpError` clause catches only `HttpError`; the insert
call is the sole remote call it can observe, since every `HttpError`
raised earlier would reference the yet-unbound `payload`.  Status 409
is reclassified into the domain error carrying the resolved name; any
other status is re-raised unchanged. -/
def run (env : Env) (inst : Inst) : Except PyError Response :=
  match build_instance_payload env inst with
  | .error e => .error e
  | .ok payload =>
    match env.insertInstance inst payload with
    | .ok _ =>
        .ok { status := "SUBMITTED", request_id := env.requestId, name := payload.name }
    | .error err =>
        if err.1 = 409 then
          .error (.orchestrateError
            ("An instance with name " ++ payload.name ++ " already exists."))
        else .error (.http err.1 err.2)

/-! ### Concrete fixtures used by counterexamples and witnesses -/

/-- A boot disk whose source-image link matches the fixed grammar. -/
def bootDisk : Disk := ⟨true, ⟨"/projects/p/global/images/v", "pd-ssd"⟩⟩

/-- A small but fully populated template. -/
def tmplBase : Template :=
  { name := "render-8"
    properties :=
      { machineType := some "e2-micro"
        networkInterfaces := some [⟨"n0", "s0"⟩]
        disks := some [bootDisk]
        metadata := some ⟨some []⟩ } }

def imgExact : Image := { selfLink := "link-exact", family := "centos-7" }

def imgLatest : Image := { selfLink := "link-latest", family := "centos-7" }

/-- An environment whose remote calls return fixed values. -/
def mkEnv (t : Template) (exact latest : Image)
    (ins : Inst → Payload → Except (Nat × String) String) : Env :=
  { getTemplate := fun _ => t
    getImage := fun _ _ => exact
    getImageFromFamily := fun _ _ => latest
    insertInstance := ins
    uuid5 := "abcde"
    requestId := "rid-1"
    bucket := "bkt" }

def insOk : Inst → Payload → Except (Nat × String) String := fun _ _ => .ok "operation-1"

def envBase : Env := mkEnv tmplBase imgExact imgLatest insOk

def instBase : Inst :=
  { project := "pr", zone := "us-central1-a", template := "render", size := "8"
    name := "myinst", metadata := [], use_latest_image := false }

/-- The payload `build_instance_payload envBase instBase` produces. -/
def payloadBase : Payload :=
  { name := "myinst"
    description := "Orchestrate instance created from template render size 8"
    machineType := some "projects/pr/zones/us-central1-a/machineTypes/n1-standard-8"
    networkInterfaces := some
      [⟨"global/networks/default", "projects/pr/regions/us-central1/subnetworks/default"⟩]
    disks := some [⟨true, ⟨"/projects/p/global/images/v",
      "projects/pr/zones/us-central1-a/diskTypes/pd-ssd"⟩⟩]
    metadata := [⟨"startup-script-url", "gs://bkt/remotedesktopconfigure.py"⟩] }

/-! ## Claims -/

/-- Claim C1. The metadata split partitions template items exactly once and
appends the request overrides, but the reserved prefix is NOT stripped
whole: `"orchestrate_"` has 12 characters while the code takes
`item['key'][8:]`, so the extended mapping holds `"ate_machine_type"`
where both the docstring of `get_metadata` and every consumer
(`orchestrate_metadata.get('machine_type')`, `...get('network')`,
`...get('instance_name_pattern')`) expect `"machine_type"`.  Evaluated
at the failing input below, the extended mapping has the mangled key
and lacks the stripped one. -/
theorem c1_metadata_prefix_bug :
    get_metadata instBase
      ⟨"render-8",
        { metadata := some ⟨some [⟨"orchestrate_machine_type", "e2-micro"⟩]⟩ }⟩
      = .ok ([], [("ate_machine_type", "e2-micro")]) ∧
    dget [("ate_machine_type", "e2-micro")] "machine_type" = none ∧
    ("orchestrate_" : String).length = 12 := by
  decide

/-- Claim C2, counterexample. The template declares machine type
`"e2-micro"` and the extended metadata carries no machine-type
override, yet the assembled descriptor's machine type ends in the
hard-coded `"n1-standard-8"`, not the template's declared value — the
claim's fallback to the template's properties does not exist. -/
theorem c2_counterexample :
    (envBase.getTemplate instBase).properties.machineType = some "e2-micro" ∧
    (build_instance_payload envBase instBase).map Payload.machineType =
      .ok (some "projects/pr/zones/us-central1-a/machineTypes/n1-standard-8") ∧
    ("n1-standard-8" : String) ≠ "e2-micro" := by
  decide

/-- Claim C2, amended. For every request and template, the assembled
descriptor's machine type is the fully qualified URL
`projects/{project}/zones/{zone}/machineTypes/{m}` where `m` is the
extended-metadata machine-type override when that key is present and
the fixed literal `"n1-standard-8"` otherwise; the machine type the
template's properties declare is ignored. -/
theorem c2_machine_type_url (env : Env) (inst : Inst)
    (im : List MetadataItem) (om : Dict) (p : Payload)
    (hm : get_metadata inst (env.getTemplate inst) = .ok (im, om))
    (hp : build_instance_payload env inst = .ok p) :
    p.machineType = some ("projects/" ++ inst.project ++ "/zones/" ++ inst.zone ++
      "/machineTypes/" ++ dgetD om "machine_type" "n1-standard-8") := by
  simp only [build_instance_payload, hm] at hp
  cases hn : build_name env inst om with
  | error e => rw [hn] at hp; exact Except.noConfusion hp
  | ok nm =>
    simp only [hn] at hp
    cases hd : (env.getTemplate inst).properties.disks with
    | none => simp only [hd] at hp; exact Except.noConfusion hp
    | some ds =>
      simp only [hd] at hp
      cases hb : get_boot_images env ds with
      | error e => simp only [hb] at hp; exact Except.noConfusion hp
      | ok images =>
        simp only [hb] at hp
        cases hi : (env.getTemplate inst).properties.networkInterfaces with
        | none => simp only [hi] at hp; exact Except.noConfusion hp
        | some ifs =>
          simp only [hi] at hp
          cases hs : set_startup_script env.bucket im
              (if inst.use_latest_image then images.2 else images.1) with
          | error e => simp only [hs] at hp; exact Except.noConfusion hp
          | ok md =>
            simp only [hs, Except.ok.injEq] at hp
            rw [← hp]

/-- Claim C2, witness. The amended statement applied to the base
fixtures. -/
theorem c2_machine_type_url_witness :
    payloadBase.machineType =
      some "projects/pr/zones/us-central1-a/machineTypes/n1-standard-8" :=
  c2_machine_type_url envBase instBase [] [] payloadBase (by decide) (by decide)

/-- An environment whose image fetches echo their arguments, making the
chosen disk observable. -/
def envImg : Env :=
  { getTemplate := fun _ => tmplBase
    getImage := fun proj ver => ⟨"exact/" ++ proj ++ "/" ++ ver, "fam-" ++ proj, []⟩
    getImageFromFamily := fun proj fam => ⟨"latest/" ++ proj ++ "/" ++ fam, fam, []⟩
    insertInstance := insOk
    uuid5 := "abcde"
    requestId := "rid-1"
    bucket := "bkt" }

/-- Helper: with no boot-flagged disk, `get_boot_images` raises the
domain error. -/
theorem get_boot_images_no_boot (env : Env) :
    ∀ disks : List Disk, (∀ d ∈ disks, d.boot = false) →
      get_boot_images env disks = .error (.orchestrateError "Template has no boot disk.") := by
  intro disks
  induction disks with
  | nil => intro _; rfl
  | cons d rest ih =>
    intro h
    have hd : d.boot = false := h d (List.mem_cons_self d rest)
    simp only [get_boot_images, hd]
    exact ih (fun x hx => h x (List.mem_cons_of_mem d hx))

/-- Helper: the first boot-flagged disk decides the result of
`get_boot_images`. -/
theorem get_boot_images_first (env : Env) :
    ∀ (pre : List Disk) (d : Disk) (post : List Disk),
      (∀ x ∈ pre, x.boot = false) → d.boot = true →
      get_boot_images env (pre ++ d :: post) = get_images env d.initializeParams := by
  intro pre
  induction pre with
  | nil =>
    intro d post _ hd
    simp only [List.nil_append, get_boot_images, hd, if_true]
  | cons x rest ih =>
    intro d post h hd
    have hx : x.boot = false := h x (List.mem_cons_self x rest)
    simp only [List.cons_append, get_boot_images, hx]
    exact ih d post (fun y hy => h y (List.mem_cons_of_mem x hy)) hd

/-- Claim C3, counterexample. A template with two boot-flagged disks does
not make `get_boot_images` fail: it resolves the first boot disk's
images (visible in the echoed project/version) and succeeds. -/
theorem c3_counterexample :
    (Disk.mk true ⟨"/projects/p/global/images/v1", "pd"⟩).boot = true ∧
    (Disk.mk true ⟨"/projects/q/global/images/v2", "pd"⟩).boot = true ∧
    get_boot_images envImg
        [⟨true, ⟨"/projects/p/global/images/v1", "pd"⟩⟩,
         ⟨true, ⟨"/projects/q/global/images/v2", "pd"⟩⟩] =
      .ok (⟨"exact/p/v1", "fam-p", []⟩, ⟨"latest/p/fam-p", "fam-p", []⟩) := by
  decide

/-- Claim C3, amended. With exactly one boot-flagged disk — and more
generally whenever at least one exists — `get_boot_images` resolves the
images of the FIRST boot-flagged disk (the exact referenced image and
its family's latest); only a template with zero boot-flagged disks
fails with the `MissingBootDiskError`-style domain error.  A template
with more than one boot disk does not fail. -/
theorem c3_boot_disk_resolution (env : Env) (disks : List Disk) :
    ((∀ d ∈ disks, d.boot = false) →
       get_boot_images env disks = .error (.orchestrateError "Template has no boot disk.")) ∧
    (∀ (pre : List Disk) (d : Disk) (post : List Disk),
       disks = pre ++ d :: post → (∀ x ∈ pre, x.boot = false) → d.boot = true →
       get_boot_images env disks = get_images env d.initializeParams) := by
  constructor
  · exact get_boot_images_no_boot env disks
  · intro pre d post hsplit hpre hd
    rw [hsplit]
    exact get_boot_images_first env pre d post hpre hd

/-- Claim C3, witness. The amended statement applied to an empty disk
list and to a list whose second disk is the boot disk. -/
theorem c3_boot_disk_resolution_witness :
    get_boot_images envImg [] = .error (.orchestrateError "Template has no boot disk.") ∧
    get_boot_images envImg
        [⟨false, ⟨"x", "pd"⟩⟩, ⟨true, ⟨"/projects/p/global/images/v1", "pd"⟩⟩] =
      get_images envImg ⟨"/projects/p/global/images/v1", "pd"⟩ :=
  ⟨(c3_boot_disk_resolution envImg []).1 (by decide),
   (c3_boot_disk_resolution envImg
      [⟨false, ⟨"x", "pd"⟩⟩, ⟨true, ⟨"/projects/p/global/images/v1", "pd"⟩⟩]).2
     [⟨false, ⟨"x", "pd"⟩⟩] ⟨true, ⟨"/projects/p/global/images/v1", "pd"⟩⟩ []
     rfl (by decide) rfl⟩

/-- Helper: on a brace-free string the format scanner is the
identity. -/
theorem scanFormat_no_braces (lookup : String → Option String) :
    ∀ l : List Char, (∀ c ∈ l, c ≠ lbrace ∧ c ≠ rbrace) →
      scanFormat lookup l none = .ok l := by
  intro l
  induction l with
  | nil => intro _; rfl
  | cons c rest ih =>
    intro h
    have hc := h c (List.mem_cons_self c rest)
    have hrest := ih (fun x hx => h x (List.mem_cons_of_mem c hx))
    rw [scanFormat.eq_def]
    simp only [hc.1, hc.2, if_false, hrest]

/-- Claim C4, counterexample. An explicit request name is NOT used
verbatim: it is run through `str.format`, so the explicit name
`"{zone}"` resolves to the zone value instead of itself. -/
theorem c4_counterexample :
    ({ instBase with name := "{zone}" } : Inst).name = "{zone}" ∧
    build_name envBase { instBase with name := "{zone}" }
        [("instance_name_pattern", "ignored")] = .ok "us-central1-a" ∧
    ("us-central1-a" : String) ≠ "{zone}" := by
  decide

/-- Claim C4, amended. The precedence chain holds — a non-empty explicit
request name beats the extended-metadata pattern, which beats the
built-in default `"{template}-{size}-{id}"` — but at every level the
chosen string is passed through placeholder substitution; an explicit
name equals the result verbatim only when it contains no brace. -/
theorem c4_name_resolution (env : Env) (inst : Inst) (om : Dict) :
    (inst.name ≠ "" →
       build_name env inst om = pyFormat (nameLookup env inst om) inst.name) ∧
    (inst.name ≠ "" → (∀ c ∈ inst.name.data, c ≠ lbrace ∧ c ≠ rbrace) →
       build_name env inst om = .ok inst.name) ∧
    (inst.name = "" → ∀ pat, dget om "instance_name_pattern" = some pat → pat ≠ "" →
       build_name env inst om = pyFormat (nameLookup env inst om) pat) ∧
    (inst.name = "" →
       (dget om "instance_name_pattern" = none ∨
        dget om "instance_name_pattern" = some "") →
       build_name env inst om = pyFormat (nameLookup env inst om) "{template}-{size}-{id}") := by
  refine ⟨fun h1 => ?_, fun h1 h2 => ?_, fun h1 pat hpat hne => ?_, fun h1 h2 => ?_⟩
  · simp only [build_name, chooseNamePattern, h1, if_true, ne_eq, not_false_iff]
  · have hpat : chooseNamePattern inst om = inst.name := by
      simp only [chooseNamePattern, h1, if_true, ne_eq, not_false_iff]
    simp only [build_name, hpat, pyFormat, scanFormat_no_braces _ inst.name.data h2]
  · simp only [build_name, chooseNamePattern, h1, hpat, hne, if_true, if_false,
      ne_eq, not_true_eq_false, not_false_iff]
  · rcases h2 with h2 | h2 <;>
      simp only [build_name, chooseNamePattern, h1, h2, ne_eq, not_true_eq_false,
        if_false]

/-- Claim C4, witness. The amended statement applied to the base request
(whose explicit brace-free name `"myinst"` is returned verbatim). -/
theorem c4_name_resolution_witness :
    build_name envBase instBase [("instance_name_pattern", "{region}-x")] = .ok "myinst" :=
  (c4_name_resolution envBase instBase [("instance_name_pattern", "{region}-x")]).2.1
    (by decide) (by decide)

/-- An image whose explicit label is outside `{linux, windows}` while
its family prefix is a known Linux one. -/
def imgSolaris : Image :=
  { selfLink := "link-solaris", family := "centos-7"
    labels := [("orchestrate_os", "Solaris")] }

/-- Claim C5, counterexample. An explicit label wins outright but its
value is NOT confined to `{linux, windows}`: label `"Solaris"` makes
`get_os_type` return `"solaris"`, even though the family-prefix
heuristic would have said `linux`. -/
theorem c5_counterexample :
    dget imgSolaris.labels "orchestrate_os" = some "Solaris" ∧
    get_os_type imgSolaris = .ok "solaris" ∧
    ("solaris" : String) ≠ "linux" ∧ ("solaris" : String) ≠ "windows" := by
  decide

/-- Claim C5, amended. A non-empty explicit OS label wins outright,
case-insensitively — but it is returned lowercased as-is, with no check
against `{linux, windows}`.  Only the family-prefix heuristic is
confined to that set: with no truthy label, a first token `windows`
gives `windows`, an allow-listed Linux prefix gives `linux`, and
anything else fails with the `UnknownOSTypeError`-style domain
error. -/
theorem c5_os_classification (image : Image) :
    (∀ l, dget image.labels "orchestrate_os" = some l → l ≠ "" →
       get_os_type image = .ok (pyToLower l)) ∧
    ((dget image.labels "orchestrate_os" = none ∨
      dget image.labels "orchestrate_os" = some "") →
      (((pySplitChar '-' image.family).headD "" = "windows" →
          get_os_type image = .ok "windows") ∧
       (linux_families.contains ((pySplitChar '-' image.family).headD "") = true →
          get_os_type image = .ok "linux") ∧
       ((pySplitChar '-' image.family).headD "" ≠ "windows" →
        linux_families.contains ((pySplitChar '-' image.family).headD "") = false →
          get_os_type image = .error (.orchestrateError (osTypeErrorMessage image))))) := by
  constructor
  · intro l hl hne
    simp only [get_os_type, hl, hne, if_false]
  · intro hl
    have hwin_ne : linux_families.contains ("windows" : String) = false := by decide
    refine ⟨fun hw => ?_, fun hlin => ?_, fun hw hlin => ?_⟩
    · rcases hl with h | h <;>
        simp only [get_os_type, get_os_type.familyOsType, h, hw, if_true]
    · have hw : (pySplitChar '-' image.family).headD "" ≠ "windows" := by
        intro hcontra
        rw [hcontra] at hlin
        rw [hwin_ne] at hlin
        exact Bool.noConfusion hlin
      rcases hl with h | h <;>
        simp only [get_os_type, get_os_type.familyOsType, h, hw, hlin, if_false, if_true]
    · rcases hl with h | h <;>
        simp only [get_os_type, get_os_type.familyOsType, h, hw, hlin, if_false] <;> rfl

/-- Claim C5, witness. The amended statement applied to `imgSolaris`
(explicit-label branch) and to a label-free windows-family image
(heuristic branch). -/
theorem c5_os_classification_witness :
    get_os_type imgSolaris = .ok (pyToLower "Solaris") ∧
    get_os_type ⟨"link-w", "windows-2019", []⟩ = .ok "windows" :=
  ⟨(c5_os_classification imgSolaris).1 "Solaris" (by decide) (by decide),
   ((c5_os_classification ⟨"link-w", "windows-2019", []⟩).2 (Or.inl (by decide))).1
     (by decide)⟩

/-- Claim C6, counterexample. A source-image reference outside the fixed
grammar does not produce a domain error: `re.match` returns `None` and
the immediate `.group` access raises a bare `AttributeError`.  No
`InvalidImageReferenceError`-style domain error exists on this path. -/
theorem c6_counterexample :
    reMatchImages "sample-image" = none ∧
    get_images envBase ⟨"sample-image", "pd"⟩ =
      .error (.attributeError "NoneType object has no attribute group") ∧
    PyError.isDomainError (.attributeError "NoneType object has no attribute group") = false := by
  decide

/-- Claim C6, amended. For every boot disk whose source-image reference
does not match `.*/projects/{project}/global/images/{version}`, image
resolution fails — but with an unclassified `AttributeError` crash (the
`None` returned by `re.match` has no `group` attribute), not with a
domain error. -/
theorem c6_malformed_image_reference (env : Env) (parameters : InitializeParams)
    (h : reMatchImages parameters.sourceImage = none) :
    get_images env parameters =
      .error (.attributeError "NoneType object has no attribute group") ∧
    ∀ e, get_images env parameters = .error e → e.isDomainError = false := by
  have hg : get_images env parameters =
      .error (.attributeError "NoneType object has no attribute group") := by
    simp only [get_images, h]
  refine ⟨hg, fun e he => ?_⟩
  rw [hg] at he
  cases he
  rfl

/-- Claim C6, witness. The amended statement applied to a reference with
no `/projects/` segment at all. -/
theorem c6_malformed_image_reference_witness :
    get_images envBase ⟨"global/images/only", "pd"⟩ =
      .error (.attributeError "NoneType object has no attribute group") :=
  (c6_malformed_image_reference envBase ⟨"global/images/only", "pd"⟩ (by decide)).1

/-- An environment whose insert call always reports 409 (name already
in use). -/
def envConflict : Env := mkEnv tmplBase imgExact imgLatest (fun _ _ => .error (409, "conflict"))

/-- Claim C7. Given a successfully built payload, the submission's error
handling reclassifies exactly the 409 (already-exists) rejection into
the domain error carrying the resolved instance name; an insert
rejection with any other status propagates unchanged (same status, same
body), and a successful insert yields the SUBMITTED response. -/
theorem c7_conflict_reclassification (env : Env) (inst : Inst) (p : Payload)
    (hp : build_instance_payload env inst = .ok p) :
    (∀ status body, env.insertInstance inst p = .error (status, body) →
       (status = 409 →
          run env inst = .error (.orchestrateError
            ("An instance with name " ++ p.name ++ " already exists."))) ∧
       (status ≠ 409 → run env inst = .error (.http status body))) ∧
    (∀ op, env.insertInstance inst p = .ok op →
       run env inst = .ok
         { status := "SUBMITTED", request_id := env.requestId, name := p.name }) := by
  constructor
  · intro status body he
    constructor
    · intro h409
      simp only [run, hp, he, h409, if_true]
    · intro hne
      simp only [run, hp, he, hne, if_false]
  · intro op hok
    simp only [run, hp, hok]

/-- Claim C7, witness. The reclassification applied to the base fixtures
with an insert that reports 409: the domain error carries the resolved
name `myinst`. -/
theorem c7_conflict_reclassification_witness :
    run envConflict instBase =
      .error (.orchestrateError "An instance with name myinst already exists.") :=
  ((c7_conflict_reclassification envConflict instBase payloadBase (by decide)).1
    409 "conflict" rfl).1 rfl

/-- Helper: `get_boot_images` is decided by the first boot-flagged disk
in `List.find?` form. -/
theorem get_boot_images_eq_find (env : Env) :
    ∀ ds : List Disk, get_boot_images env ds =
      match ds.find? (fun d => d.boot) with
      | none => .error (.orchestrateError "Template has no boot disk.")
      | some d => get_images env d.initializeParams := by
  intro ds
  induction ds with
  | nil => rfl
  | cons d rest ih =>
    by_cases hb : d.boot
    · simp only [get_boot_images, hb, if_true, List.find?_cons_of_pos _ hb]
    · simp only [get_boot_images, hb, if_false, ih,
        List.find?_cons_of_neg _ (by simpa using hb)]
      rfl

/-- The request with the use-latest-image flag set. -/
def instLatest : Inst := { instBase with use_latest_image := true }

/-- The payload `build_instance_payload envBase instLatest` produces:
the boot disk's source image has been replaced by the latest image's
canonical link. -/
def payloadLatest : Payload :=
  { payloadBase with
    disks := some [⟨true, ⟨"link-latest",
      "projects/pr/zones/us-central1-a/diskTypes/pd-ssd"⟩⟩] }

/-- Claim C8. Whenever the build succeeds, the exact boot image is the
one referenced by the first boot-flagged disk and the latest image is
looked up in that image's family; and in the assembled descriptor every
disk's source image is the latest image's canonical link exactly when
the disk is boot-flagged and the use-latest-image flag is set, and is
the template's original reference otherwise (in particular non-boot
disks keep their source image in both cases). -/
theorem c8_use_latest_image (env : Env) (inst : Inst)
    (im : List MetadataItem) (om : Dict) (ds : List Disk)
    (d0 : Disk) (proj ver : String) (p : Payload)
    (hm : get_metadata inst (env.getTemplate inst) = .ok (im, om))
    (hd : (env.getTemplate inst).properties.disks = some ds)
    (hfirst : ds.find? (fun d => d.boot) = some d0)
    (hmatch : reMatchImages d0.initializeParams.sourceImage = some (proj, ver))
    (hp : build_instance_payload env inst = .ok p) :
    get_boot_images env ds =
      .ok (env.getImage proj ver,
           env.getImageFromFamily proj (env.getImage proj ver).family) ∧
    p.disks.isSome = true ∧
    List.Forall₂ (fun d d2 => d2.initializeParams.sourceImage =
        if d.boot && inst.use_latest_image
        then (env.getImageFromFamily proj (env.getImage proj ver).family).selfLink
        else d.initializeParams.sourceImage)
      ds (p.disks.getD []) := by
  have hgb : get_boot_images env ds =
      .ok (env.getImage proj ver,
           env.getImageFromFamily proj (env.getImage proj ver).family) := by
    rw [get_boot_images_eq_find env ds, hfirst]
    simp only [get_images, hmatch]
  refine ⟨hgb, ?_⟩
  simp only [build_instance_payload, hm] at hp
  cases hn : build_name env inst om with
  | error e => rw [hn] at hp; exact Except.noConfusion hp
  | ok nm =>
    simp only [hn, hd, hgb] at hp
    cases hi : (env.getTemplate inst).properties.networkInterfaces with
    | none => simp only [hi] at hp; exact Except.noConfusion hp
    | some ifs =>
      simp only [hi] at hp
      cases hs : set_startup_script env.bucket im
          (if inst.use_latest_image then
            env.getImageFromFamily proj (env.getImage proj ver).family
          else env.getImage proj ver) with
      | error e => simp only [hs] at hp; exact Except.noConfusion hp
      | ok md =>
        simp only [hs, Except.ok.injEq] at hp
        rw [← hp]
        refine ⟨rfl, ?_⟩
        simp only [Option.getD_some]
        rw [List.forall₂_map_right_iff]
        rw [List.forall₂_same]
        intro d _
        by_cases hcase : d.boot && inst.use_latest_image
        · simp only [rewriteDisk, hcase, if_true]
        · simp only [rewriteDisk, hcase, if_false]
          rfl

/-- Claim C8, witness. With the flag set, the assembled boot disk's
source image is the latest image's canonical link `"link-latest"`. -/
theorem c8_use_latest_image_witness :
    get_boot_images envBase [bootDisk] = .ok (imgExact, imgLatest) ∧
    payloadLatest.disks.isSome = true ∧
    List.Forall₂ (fun d d2 => d2.initializeParams.sourceImage =
        if d.boot && instLatest.use_latest_image
        then (envBase.getImageFromFamily "p" (envBase.getImage "p" "v").family).selfLink
        else d.initializeParams.sourceImage)
      [bootDisk] (payloadLatest.disks.getD []) :=
  c8_use_latest_image envBase instLatest [] [] [bootDisk] bootDisk "p" "v"
    payloadLatest (by decide) (by decide) (by decide) (by decide) (by decide)

def imgSolarisLatest : Image :=
  { selfLink := "link-solaris-latest", family := "centos-7"
    labels := [("orchestrate_os", "Solaris")] }

/-- An environment whose images carry the out-of-set `"Solaris"`
label. -/
def envSolaris : Env := mkEnv tmplBase imgSolaris imgSolarisLatest insOk

/-- The payload built against `envSolaris`: identical to the base one
except that no startup-script item was appended. -/
def payloadSolaris : Payload := { payloadBase with metadata := [] }

/-- Claim C9. When the booted image carries an explicit label whose
lowercase form is neither `"linux"` nor `"windows"`, the startup-script
selection appends nothing and raises nothing: `set_startup_script`
returns the metadata unchanged, and the assembled descriptor's metadata
item list is exactly the split instance metadata, with no
startup-script entry added. -/
theorem c9_unknown_label_no_startup (env : Env) (inst : Inst)
    (im : List MetadataItem) (om : Dict) (ds : List Disk)
    (bi latest : Image) (p : Payload) (l : String)
    (hm : get_metadata inst (env.getTemplate inst) = .ok (im, om))
    (hd : (env.getTemplate inst).properties.disks = some ds)
    (hb : get_boot_images env ds = .ok (bi, latest))
    (hl : dget (if inst.use_latest_image then latest else bi).labels "orchestrate_os"
            = some l)
    (hne : l ≠ "") (hlin : pyToLower l ≠ "linux") (hwin : pyToLower l ≠ "windows")
    (hp : build_instance_payload env inst = .ok p) :
    set_startup_script env.bucket im (if inst.use_latest_image then latest else bi)
      = .ok im ∧
    p.metadata = im := by
  have hos : get_os_type (if inst.use_latest_image then latest else bi)
      = .ok (pyToLower l) := by
    simp only [get_os_type, hl, hne, if_false]
  have hss : set_startup_script env.bucket im
      (if inst.use_latest_image then latest else bi) = .ok im := by
    simp only [set_startup_script, hos, hlin, hwin, if_false]
  refine ⟨hss, ?_⟩
  simp only [build_instance_payload, hm] at hp
  cases hn : build_name env inst om with
  | error e => rw [hn] at hp; exact Except.noConfusion hp
  | ok nm =>
    simp only [hn, hd, hb] at hp
    cases hi : (env.getTemplate inst).properties.networkInterfaces with
    | none => simp only [hi] at hp; exact Except.noConfusion hp
    | some ifs =>
      simp only [hi, hss, Except.ok.injEq] at hp
      rw [← hp]

/-- Claim C9, witness. With the Solaris-labelled boot image, the build
succeeds and its metadata list is the (empty) instance metadata: no
startup-script entry at all. -/
theorem c9_unknown_label_no_startup_witness :
    set_startup_script envSolaris.bucket [] imgSolaris = .ok [] ∧
    payloadSolaris.metadata = [] :=
  c9_unknown_label_no_startup envSolaris instBase [] [] [bootDisk]
    imgSolaris imgSolarisLatest payloadSolaris "Solaris"
    (by decide) (by decide) (by decide) (by decide) (by decide) (by decide)
    (by decide) (by decide)

/-- A template lacking `networkInterfaces` whose only disk is not
boot-flagged. -/
def envNoIfsNoBoot : Env :=
  mkEnv ⟨"render-8", { metadata := some ⟨some []⟩, disks := some [⟨false, ⟨"x", "pd"⟩⟩] }⟩
    imgExact imgLatest insOk

/-- A template lacking only `networkInterfaces`. -/
def envNoIfs : Env :=
  mkEnv ⟨"render-8", { metadata := some ⟨some []⟩, disks := some [bootDisk] }⟩
    imgExact imgLatest insOk

/-- A template lacking the `metadata` key. -/
def envNoMeta : Env :=
  mkEnv ⟨"render-8", { tmplBase.properties with metadata := none }⟩
    imgExact imgLatest insOk

/-- Claim C10, counterexample. A template whose properties lack
`networkInterfaces` does not always fail with a lookup error: when it
also has no boot-flagged disk, assembly fails first with the
boot-disk DOMAIN error, because the missing key is only read after
image resolution. -/
theorem c10_counterexample :
    (envNoIfsNoBoot.getTemplate instBase).properties.networkInterfaces = none ∧
    build_instance_payload envNoIfsNoBoot instBase =
      .error (.orchestrateError "Template has no boot disk.") ∧
    PyError.isDomainError (.orchestrateError "Template has no boot disk.") = true := by
  decide

/-- Claim C10, amended. Template properties are indexed unconditionally
in pipeline order: a missing `metadata` dict (or a missing `items` list
inside it) always fails with an uncaught `KeyError`; a missing `disks`
key fails with `KeyError` provided name resolution succeeded; a missing
`networkInterfaces` key fails with `KeyError` provided name resolution,
boot-disk lookup and image resolution all succeeded first. -/
theorem c10_required_keys (env : Env) (inst : Inst) :
    ((env.getTemplate inst).properties.metadata = none →
       build_instance_payload env inst = .error (.keyError "metadata")) ∧
    (∀ mb, (env.getTemplate inst).properties.metadata = some mb → mb.items = none →
       build_instance_payload env inst = .error (.keyError "items")) ∧
    (∀ im om nm,
       get_metadata inst (env.getTemplate inst) = .ok (im, om) →
       build_name env inst om = .ok nm →
       (env.getTemplate inst).properties.disks = none →
       build_instance_payload env inst = .error (.keyError "disks")) ∧
    (∀ im om nm ds bi latest,
       get_metadata inst (env.getTemplate inst) = .ok (im, om) →
       build_name env inst om = .ok nm →
       (env.getTemplate inst).properties.disks = some ds →
       get_boot_images env ds = .ok (bi, latest) →
       (env.getTemplate inst).properties.networkInterfaces = none →
       build_instance_payload env inst = .error (.keyError "networkInterfaces")) := by
  refine ⟨fun h => ?_, fun mb h1 h2 => ?_, fun im om nm hm hn hd => ?_,
    fun im om nm ds bi latest hm hn hd hb hi => ?_⟩
  · simp only [build_instance_payload, get_metadata, h]
  · simp only [build_instance_payload, get_metadata, h1, h2]
  · simp only [build_instance_payload, hm, hn, hd]
  · simp only [build_instance_payload, hm, hn, hd, hb, hi]

/-- Claim C10, witness. The amended statement applied to a template
lacking `metadata` and to one lacking only `networkInterfaces`. -/
theorem c10_required_keys_witness :
    build_instance_payload envNoMeta instBase = .error (.keyError "metadata") ∧
    build_instance_payload envNoIfs instBase = .error (.keyError "networkInterfaces") :=
  ⟨(c10_required_keys envNoMeta instBase).1 (by decide),
   (c10_required_keys envNoIfs instBase).2.2.2 [] [] "myinst" [bootDisk]
     imgExact imgLatest (by decide) (by decide) (by decide) (by decide) (by decide)⟩

end Orchestrate
